import Mathlib

/-!
Verification development for the pose-gallery frontend search layer.

The definitions below are a shallow embedding of the JavaScript/TypeScript
code under the repository frontend:

* `lib/api-proxy.js` (`proxyToBackend`, `proxyToBackendWithTimeout`)
* `app/api/search/vector/route.js` (`POST`)
* `app/api/search/vector/paginated/route.js` (`POST`)
* `app/api/search/ai-database/route.js` (`POST`)
* `app/api/search/suggestions/route.js` (`GET`)
* `app/api/poses/route.js` (`GET`)
* `lib/api.ts` (`checkVectorSearchStatus`)
* `components/EnhancedSearchBar.tsx` (`getLocalSuggestions`,
  `checkServiceStatus`, `handleVectorSearch`)

Asynchronous effects are modelled by passing the observable outcome of each
external HTTP call (status code, status text, parsed JSON body or a thrown
error) as an explicit argument, and by returning the list of backend calls a
handler issues together with its response.
-/

set_option autoImplicit false

namespace PoseGallery

/-- Result of parsing a response body with `response.json()`: either the parsed
value or the message of the thrown parse error. -/
inductive JsonParse (α : Type) where
  | ok (a : α)
  | err (msg : String)
deriving DecidableEq, Repr

/-- Observable outcome of one `fetch` call, as seen by the calling code:
either a response arrived (with its numeric status, its status text and the
result of parsing its JSON body), or the fetch itself threw (network error, or
the abort fired by a timeout). -/
inductive FetchOutcome (α : Type) where
  | responded (status : Nat) (statusText : String) (data : JsonParse α)
  | netError (msg : String)
deriving DecidableEq, Repr

/-- JavaScript `response.ok`: true exactly when the status is in [200, 300). -/
def statusOk (s : Nat) : Bool := 200 ≤ s && s < 300

/-- A fetch outcome counts as a failure for the route handlers when the fetch
threw, the status was not 2xx, or the 2xx body failed to parse as JSON; each of
these paths lands in the corresponding `catch` block of the source. -/
def FetchOutcome.isFailure {α : Type} : FetchOutcome α → Bool
  | .responded s _ (.ok _) => !(statusOk s)
  | .responded _ _ (.err _) => true
  | .netError _ => true

/-- A pose record as it appears in the JSON bodies exchanged with the backend
and in the mock data of `app/api/poses/route.js`. -/
structure PoseRecord where
  id : Int
  oss_url : String
  title : String
  description : String
  scene_category : String
  angle : String
  shooting_tips : String
  ai_tags : String
  view_count : Nat
  created_at : String
deriving DecidableEq, Repr

/-- The JSON body returned by the backend vector-search endpoints, as read by
the frontend (`VectorSearchResponse` in `lib/api.ts`). Optional fields model
JSON fields that may be absent; `service_available` is kept optional so that an
absent field (JavaScript `undefined`, which is falsy) is representable. -/
structure VectorData where
  poses : Option (List PoseRecord)
  service_available : Option Bool
  version : Option String
  total : Nat
  query_time_ms : Nat
  error : Option String
  found_results : Option Nat
deriving DecidableEq, Repr

/-- Result of `proxyToBackend` as observed by a route handler: either the
backend data is returned wrapped in a 200 response, or an error is thrown. -/
inductive ProxyResult where
  | success (data : VectorData)
  | thrown (msg : String)
deriving DecidableEq, Repr

/-- Shallow embedding of `proxyToBackend` in `lib/api-proxy.js`: it fetches the
backend; when the response is not ok it throws a backend error carrying the
status, when the JSON body fails to parse that error propagates, and a network
error propagates as well (the catch block only logs and rethrows). -/
def proxyToBackend (o : FetchOutcome VectorData) : ProxyResult :=
  match o with
  | .responded s stxt (.ok data) =>
      if statusOk s then .success data
      else .thrown ("Backend error: " ++ toString s ++ " " ++ stxt)
  | .responded s stxt (.err m) =>
      if statusOk s then .thrown m
      else .thrown ("Backend error: " ++ toString s ++ " " ++ stxt)
  | .netError m => .thrown m

/-- Shallow embedding of `proxyToBackendWithTimeout` in `lib/api-proxy.js`: it
delegates to `proxyToBackend` with an abort signal; a fired timeout appears to
the caller as a thrown abort error, i.e. as a `netError` outcome. -/
def proxyToBackendWithTimeout (o : FetchOutcome VectorData) : ProxyResult :=
  proxyToBackend o

/-- An HTTP response produced by a Next.js route handler. -/
structure RouteResponse (β : Type) where
  status : Nat
  body : β
deriving DecidableEq, Repr

/-- Body of a response of `app/api/search/vector/route.js`: either the backend
data passed through, or the fixed degraded envelope built in the catch block. -/
inductive VectorRouteBody where
  | data (d : VectorData)
  | fallback (poses : List PoseRecord) (total : Nat) (query_time_ms : Nat)
      (service_available : Bool) (error : String) (message : String)
deriving DecidableEq, Repr

/-- Shallow embedding of `POST` in `app/api/search/vector/route.js`: proxy to
the backend, and on any thrown error answer 200 with the fixed degraded
envelope (`service_available: false`, explanatory message). -/
def vectorSearchPOST (o : FetchOutcome VectorData) : RouteResponse VectorRouteBody :=
  match proxyToBackendWithTimeout o with
  | .success d => ⟨200, .data d⟩
  | .thrown _ =>
      ⟨200, .fallback [] 0 0 false "Vector search failed" "向量搜索暂时不可用，请使用普通搜索"⟩

/-- Body of a response of `app/api/search/ai-database/route.js`: either the
backend data passed through, or the error envelope built in the catch block. -/
inductive AIDbRouteBody where
  | data (d : VectorData)
  | fallback (error : String) (message : String)
deriving DecidableEq, Repr

/-- Shallow embedding of `POST` in `app/api/search/ai-database/route.js`: proxy
to the backend, and on any thrown error answer with status 500 and an error
envelope that carries no `service_available` field. -/
def aiDatabasePOST (o : FetchOutcome VectorData) : RouteResponse AIDbRouteBody :=
  match proxyToBackendWithTimeout o with
  | .success d => ⟨200, .data d⟩
  | .thrown _ => ⟨500, .fallback "AI database search failed" "AI数据库搜索暂时不可用，请使用普通搜索"⟩

/-- Outcome of running a JavaScript function: it returns a value or throws. -/
inductive JsOutcome (α : Type) where
  | returns (a : α)
  | throws (e : String)
deriving DecidableEq, Repr

/-- Identifier lookup through a stack of lexical scopes, innermost first: a
name resolves exactly when some scope in the stack binds it. -/
def resolves (scopes : List (List String)) (x : String) : Bool :=
  scopes.any (fun s => s.contains x)

/-- The scope stack visible inside the catch block of
`app/api/search/vector/paginated/route.js`: the catch binding `error`, the
function parameter `request`, and the module-level import. The bindings made
with `const` inside the try block (`body`, `paginatedRequest`) are block-scoped
to the try block and are not visible from the catch block. -/
def paginatedCatchScopes : List (List String) :=
  [["error"], ["request"], ["proxyToBackendWithTimeout", "POST"]]

/-- Shallow embedding of the catch block of
`app/api/search/vector/paginated/route.js`. The block builds a degraded
envelope whose `search_info` evaluates `body?.page` and `body?.page_size`; the
identifier `body` does not resolve in the scopes visible from the catch block,
so evaluating the envelope throws a ReferenceError instead of producing the
intended 200 response (optional chaining does not guard an unresolved
identifier). The would-be envelope is kept in the unreachable branch exactly as
written in the source. -/
def paginatedCatchBlock (errMsg : String) (page page_size : Nat) :
    JsOutcome (RouteResponse VectorRouteBody) :=
  if resolves paginatedCatchScopes "body" then
    .returns ⟨200, .fallback [] 0 0 false "Paginated vector search failed"
      ("分页向量搜索暂时不可用，请使用普通搜索" ++ " " ++ errMsg ++ toString page ++ toString page_size)⟩
  else
    .throws "ReferenceError: body is not defined"

/-- Shallow embedding of `POST` in `app/api/search/vector/paginated/route.js`:
parse the request body (a parse failure jumps to the catch block), re-issue the
request to the backend through the proxy, and on any thrown error run the catch
block, which itself throws a ReferenceError. The `page` and `page_size`
arguments passed to the catch model are the defaults the source would use. -/
def paginatedVectorPOST (reqBody : JsonParse VectorData) (o : FetchOutcome VectorData) :
    JsOutcome (RouteResponse VectorRouteBody) :=
  match reqBody with
  | .err m => paginatedCatchBlock m 1 20
  | .ok _ =>
      match proxyToBackendWithTimeout o with
      | .success d => .returns ⟨200, .data d⟩
      | .thrown m => paginatedCatchBlock m 1 20

/-- A request issued from frontend code with `fetch`, reduced to the fields the
claims inspect: target URL, HTTP method and the JSON body of the POST. -/
structure FetchRequest where
  url : String
  method : String
  bodyQuery : String
  bodyTopK : Nat
  bodyMinSimilarity : Rat
deriving DecidableEq, Repr

/-- The request `checkVectorSearchStatus` in `lib/api.ts` issues on every
invocation: a POST of a minimal but complete vector search (a real query text
with `top_k: 1`) to the vector-search route. -/
def statusProbeRequest : FetchRequest :=
  { url := "/api/search/vector"
    method := "POST"
    bodyQuery := "test"
    bodyTopK := 1
    bodyMinSimilarity := mkRat 1 10 }

/-- Backend requests issued by a single invocation of
`checkVectorSearchStatus` in `lib/api.ts`: the function body unconditionally
performs the live probe fetch; it reads no cached flag. -/
def checkVectorSearchStatusCalls : List FetchRequest := [statusProbeRequest]

/-- The value `checkVectorSearchStatus` resolves with. -/
structure StatusResult where
  available : Bool
  message : String
  version : Option String
deriving DecidableEq, Repr

/-- Shallow embedding of `checkVectorSearchStatus` in `lib/api.ts`, as a
function of the outcome of its probe fetch. On an ok response it reads
`data.service_available || false` (so an absent or false field yields
unavailable); on a non-ok response it reports a check failure with the status
text; when the fetch or the body parse throws, the catch block reports a
connection failure with the error message. -/
def checkVectorSearchStatus (o : FetchOutcome VectorData) : StatusResult :=
  match o with
  | .responded s stxt (.ok data) =>
      if statusOk s then
        let avail := data.service_available.getD false
        { available := avail
          message := if avail then "向量搜索服务正常" else "向量搜索服务不可用"
          version := data.version }
      else
        { available := false, message := "服务检查失败: " ++ stxt, version := none }
  | .responded s stxt (.err m) =>
      if statusOk s then
        { available := false, message := "服务连接失败: " ++ m, version := none }
      else
        { available := false, message := "服务检查失败: " ++ stxt, version := none }
  | .netError m =>
      { available := false, message := "服务连接失败: " ++ m, version := none }

/-- Whether a probe outcome carries a truthy `service_available` flag: a 2xx
response whose parsed body sets the field to true. Every other outcome — a
body that omits the field or sets it to a falsy value, a non-2xx status, an
unparsable body, or a thrown fetch — counts as not truthy. -/
def probeFlagTruthy (o : FetchOutcome VectorData) : Bool :=
  match o with
  | .responded s _ (.ok d) => statusOk s && d.service_available.getD false
  | _ => false

/-- JavaScript string or-default: `s || d` for an optional string field, where
an absent field and the empty string are falsy. -/
def jsStrOr (o : Option String) (d : String) : String :=
  match o with
  | some s => if s = "" then d else s
  | none => d

/-- JavaScript number or-chain `a || b || 0` for optional numeric fields,
where an absent field and the number 0 are falsy. -/
def jsNumOr (a b : Option Nat) : Nat :=
  match a with
  | some n => if n = 0 then (match b with | some m => m | none => 0) else n
  | none => match b with | some m => m | none => 0

/-- Whether one list of characters occurs as a contiguous block at the front of
another (the matching step of JavaScript `String.prototype.includes`). -/
def charsPrefixOf : List Char → List Char → Bool
  | [], _ => true
  | _ :: _, [] => false
  | a :: as, b :: bs => a == b && charsPrefixOf as bs

/-- Whether a pattern occurs contiguously anywhere in a list of characters. -/
def charsContains (pat : List Char) : List Char → Bool
  | [] => charsPrefixOf pat []
  | c :: rest => charsPrefixOf pat (c :: rest) || charsContains pat rest

/-- JavaScript `s.includes(pat)`: substring containment. -/
def strIncludes (s pat : String) : Bool := charsContains pat.toList s.toList

/-- JavaScript `s.toLowerCase()` viewed as a list of characters (per-character
lower casing; characters outside the cased ranges, such as the CJK characters
in this data, are unchanged). -/
def jsLowerChars (s : String) : List Char := s.toList.map Char.toLower

/-- Case-folded substring containment,
`s.toLowerCase().includes(pat.toLowerCase())`. -/
def strIncludesCI (s pat : String) : Bool :=
  charsContains (jsLowerChars pat) (jsLowerChars s)

/-- JavaScript `s.trim()`: strip whitespace from both ends. -/
def jsTrim (s : String) : String :=
  String.mk (((s.toList.dropWhile Char.isWhitespace).reverse.dropWhile Char.isWhitespace).reverse)

/-- Backend calls a route handler can issue, tagged with the query data the
handler puts into the request. -/
inductive CallEvent where
  | suggestionsBackendCall (q : String)
  | posesBackendCall (backendUrl : String) (params : List (String × String))
deriving DecidableEq, Repr

/-- The mock suggestion list in the catch block of
`app/api/search/suggestions/route.js`. -/
def suggestionsMock : List String :=
  ["咖啡馆拍照", "户外人像", "情侣合照", "商务形象照", "街头摄影", "室内写真", "自然光拍摄", "创意构图"]

/-- Shallow embedding of `GET` in `app/api/search/suggestions/route.js` as a
function of the `q` query parameter (absent or its string value) and of the
backend fetch outcome. It returns the backend calls it issues together with
its response. A missing or short `q` answers an empty array before any fetch;
an ok backend response is passed through unchanged; any failure falls to the
catch block, which filters the mock list by case-folded containment of the
query and truncates to five entries. -/
def suggestionsGET (q : Option String) (o : FetchOutcome (List String)) :
    List CallEvent × RouteResponse (List String) :=
  let isShort : Bool :=
    match q with
    | none => true
    | some s => s = "" || s.length < 2
  if isShort then ([], ⟨200, []⟩)
  else
    let qs := match q with | some s => s | none => ""
    let calls := [CallEvent.suggestionsBackendCall qs]
    match o with
    | .responded s _ (.ok data) =>
        if statusOk s then (calls, ⟨200, data⟩)
        else (calls, ⟨200, (suggestionsMock.filter
          (fun item => strIncludesCI item qs)).take 5⟩)
    | .responded _ _ (.err _) =>
        (calls, ⟨200, (suggestionsMock.filter
          (fun item => strIncludesCI item qs)).take 5⟩)
    | .netError _ =>
        (calls, ⟨200, (suggestionsMock.filter
          (fun item => strIncludesCI item qs)).take 5⟩)

/-- JavaScript `parseInt` restricted to the shapes that occur here: an
optional sign followed by leading decimal digits; `none` models `NaN` (no
leading digit). Trailing non-digits are ignored, as `parseInt` does. -/
def jsParseInt (s : String) : Option Int :=
  let withSign : Bool × List Char :=
    match s.toList with
    | '-' :: r => (true, r)
    | '+' :: r => (false, r)
    | r => (false, r)
  let digits := withSign.2.takeWhile Char.isDigit
  if digits.isEmpty then none
  else
    let v : Nat := digits.foldl (fun acc c => acc * 10 + (c.toNat - 48)) 0
    some (if withSign.1 then -(v : Int) else (v : Int))

/-- Query parameters of `GET /api/poses`, each as the raw string of
`searchParams.get` (absent parameter modelled as `none`). -/
structure PosesParams where
  page : Option String
  per_page : Option String
  search : Option String
  category : Option String
  angle : Option String
  sort : Option String
deriving DecidableEq, Repr

/-- JavaScript truthiness guard `if (searchParams.get(k))`: an absent
parameter and the empty string are falsy and are skipped. -/
def jsTruthyParam (o : Option String) : Option String :=
  match o with
  | some s => if s = "" then none else some s
  | none => none

/-- The query string `GET /api/poses` builds for the backend request, in
append order: `page` and `per_page` always (with defaults through `|| `), then
`q`, `category`, `angle`, `sort` only when the corresponding parameter is
truthy. -/
def posesQueryParams (p : PosesParams) : List (String × String) :=
  [("page", jsStrOr p.page "1"), ("per_page", jsStrOr p.per_page "20")]
    ++ (match jsTruthyParam p.search with | some s => [("q", s)] | none => [])
    ++ (match jsTruthyParam p.category with | some s => [("category", s)] | none => [])
    ++ (match jsTruthyParam p.angle with | some s => [("angle", s)] | none => [])
    ++ (match jsTruthyParam p.sort with | some s => [("sort", s)] | none => [])

/-- The mock pose list in the catch block of `app/api/poses/route.js`. -/
def mockPoses : List PoseRecord :=
  [ { id := 1
      oss_url := "/placeholder.svg"
      title := "咖啡馆窗边坐姿"
      description := "自然光线下的优雅坐姿，适合表现文艺气质"
      scene_category := "咖啡馆"
      angle := "侧面"
      shooting_tips := "利用窗边自然光，注意光影对比"
      ai_tags := "咖啡馆,坐姿,自然光,文艺"
      view_count := 128
      created_at := "2024-01-15T10:30:00" }
  , { id := 2
      oss_url := "/placeholder.svg"
      title := "街头漫步姿势"
      description := "城市街头的自然行走姿态，展现都市生活感"
      scene_category := "街头"
      angle := "全身"
      shooting_tips := "捕捉自然行走瞬间，背景虚化突出主体"
      ai_tags := "街头,行走,都市,全身"
      view_count := 96
      created_at := "2024-01-14T16:45:00" }
  , { id := 3
      oss_url := "/placeholder.svg"
      title := "室内人像经典pose"
      description := "适合室内环境的经典人像姿势"
      scene_category := "室内"
      angle := "半身"
      shooting_tips := "注意室内灯光布置，避免过度曝光"
      ai_tags := "室内,人像,经典,半身"
      view_count := 234
      created_at := "2024-01-13T14:20:00" } ]

/-- The JSON body the backend answers on `GET /api/v1/poses` with, as passed
through by the route on success. -/
structure PosesData where
  poses : List PoseRecord
  total : Nat
  page : Nat
  per_page : Nat
  hasMore : Bool
deriving DecidableEq, Repr

/-- The body built by the catch block of `app/api/poses/route.js`: the fixed
mock poses, `total` as their count, the `page` and `per_page` parameters run
through `parseInt` (with string defaults applied first), and `hasMore: false`. -/
structure PosesMockBody where
  poses : List PoseRecord
  total : Nat
  page : Option Int
  per_page : Option Int
  hasMore : Bool
deriving DecidableEq, Repr

/-- Body of a response of `GET /api/poses`: backend data passed through, or
the mock body from the catch block. -/
inductive PosesRouteBody where
  | data (d : PosesData)
  | mock (b : PosesMockBody)
deriving DecidableEq, Repr

/-- Shallow embedding of `GET` in `app/api/poses/route.js` as a function of
the query parameters, of the backend base URL picked from the environment, and
of the backend fetch outcome. It returns the backend calls it issues together
with its response. An ok response is passed through; a non-ok status, a body
parse error, a network error or the ten-second abort all land in the catch
block, which answers 200 with the fixed mock body. -/
def posesGET (p : PosesParams) (backendUrl : String) (o : FetchOutcome PosesData) :
    List CallEvent × RouteResponse PosesRouteBody :=
  let calls := [CallEvent.posesBackendCall backendUrl (posesQueryParams p)]
  let mockBody : PosesMockBody :=
    { poses := mockPoses
      total := mockPoses.length
      page := jsParseInt (jsStrOr p.page "1")
      per_page := jsParseInt (jsStrOr p.per_page "20")
      hasMore := false }
  match o with
  | .responded s _ (.ok data) =>
      if statusOk s then (calls, ⟨200, .data data⟩)
      else (calls, ⟨200, .mock mockBody⟩)
  | .responded _ _ (.err _) => (calls, ⟨200, .mock mockBody⟩)
  | .netError _ => (calls, ⟨200, .mock mockBody⟩)

/-- Source tag of a search suggestion in `EnhancedSearchBar.tsx`. -/
inductive SuggestionType where
  | history
  | tag
  | synonym
deriving DecidableEq, Repr

/-- A suggestion record `{text, type, weight}` as used by the search bar. -/
structure SearchSuggestion where
  text : String
  type : SuggestionType
  weight : Rat
deriving DecidableEq, Repr

/-- The hardcoded candidate list inside `getLocalSuggestions` in
`components/EnhancedSearchBar.tsx`, in source order with the source weights. -/
def commonSuggestions : List SearchSuggestion :=
  [ ⟨"俏皮可爱", .tag, mkRat 9 10⟩
  , ⟨"咖啡厅拍照", .tag, mkRat 8 10⟩
  , ⟨"坐姿写真", .tag, mkRat 7 10⟩
  , ⟨"户外人像", .tag, mkRat 8 10⟩
  , ⟨"情侣拍照", .tag, mkRat 9 10⟩
  , ⟨"街头摄影", .tag, mkRat 7 10⟩
  , ⟨"室内写真", .tag, mkRat 8 10⟩
  , ⟨"商务形象", .tag, mkRat 6 10⟩ ]

/-- Shallow embedding of `getLocalSuggestions` in
`components/EnhancedSearchBar.tsx`: keep the hardcoded candidates whose text
contains the typed text as a substring, in list order, and truncate to five. -/
def getLocalSuggestions (typed : String) : List SearchSuggestion :=
  (commonSuggestions.filter (fun s => strIncludes s.text typed)).take 5

/-- Retrieval mode of the vector search path in the search bar. -/
inductive SearchMode where
  | paginated
  | dynamic
deriving DecidableEq, Repr

/-- Events observable while `handleVectorSearch` runs: the live status probe
fetch issued through `checkServiceStatus`, and the vector search API call. -/
inductive TraceEvent where
  | liveProbe (req : FetchRequest)
  | vectorCall (mode : SearchMode) (q : String)
deriving DecidableEq, Repr

/-- The callback through which `handleVectorSearch` hands its outcome to the
parent component. -/
inductive Callback where
  | noCall
  | resetSearch
  | keywordSearch (q : String)
  | aiResult (poses : List PoseRecord)
deriving DecidableEq, Repr

/-- Shallow embedding of `checkServiceStatus` in
`components/EnhancedSearchBar.tsx`: it awaits `checkVectorSearchStatus`
(which resolves on every fetch outcome, see above) and returns its value; the
surrounding catch only guards a rejection that cannot occur here. The cached
`vectorServiceStatus` state is written with the fresh value but never read on
this path. -/
def checkServiceStatus (probe : FetchOutcome VectorData) : StatusResult :=
  checkVectorSearchStatus probe

/-- The `ai_explanation` text recorded by `handlePaginatedSearch` and
`handleDynamicSearch` after a resolved vector API call, following the source
template: on `service_available` report the found count
(`search_info?.found_results || poses?.length || 0`), otherwise report the
degradation with `error || ` a default. -/
def vectorExplanation (r : VectorData) : String :=
  if r.service_available.getD false then
    "使用向量相似度匹配找到最相关的姿势\n找到 " ++
      toString (jsNumOr r.found_results (r.poses.map List.length)) ++ " 个结果"
  else
    "向量搜索服务不可用，已为您执行普通搜索\n错误信息: " ++ jsStrOr r.error "服务连接失败"

/-- Shallow embedding of `handlePaginatedSearch` and `handleDynamicSearch` in
`components/EnhancedSearchBar.tsx`, which share one shape: await the vector
API call (its rejection is logged and rethrown), record the explanation via
`setSearchInfo`, and resolve with the data. The argument is the outcome the
API call settles with. -/
def innerVectorSearch (api : JsOutcome VectorData) : JsOutcome (VectorData × String) :=
  match api with
  | .throws m => .throws m
  | .returns r => .returns (r, vectorExplanation r)

/-- Shallow embedding of the try block of `handleVectorSearch` in
`components/EnhancedSearchBar.tsx`, returning the backend events it issues,
and either the invoked callback paired with the recorded `ai_explanation`, or
the error the block throws. Inputs: the raw query text, whether the optional
`onAISearchResult` and `onResetSearch` props are provided, the selected mode,
the outcome of the status probe fetch, and the outcome of the vector API
call. -/
def handleVectorSearchTry (q : String) (hasAIHandler hasResetHandler : Bool)
    (mode : SearchMode) (probe : FetchOutcome VectorData) (api : JsOutcome VectorData) :
    List TraceEvent × JsOutcome (Callback × Option String) :=
  if jsTrim q = "" then
    ([], .returns (if hasResetHandler then Callback.resetSearch else Callback.noCall, none))
  else
    let status := checkServiceStatus probe
    let probeTrace := [TraceEvent.liveProbe statusProbeRequest]
    if !status.available then
      (probeTrace, .returns (Callback.keywordSearch q,
        some ("向量搜索服务不可用: " ++ status.message)))
    else
      let trace := probeTrace ++ [TraceEvent.vectorCall mode (jsTrim q)]
      match innerVectorSearch api with
      | .throws m => (trace, .throws m)
      | .returns (r, expl) =>
          let callback :=
            match r.poses with
            | some ps =>
                if ps.length > 0 then
                  if hasAIHandler then Callback.aiResult ps else Callback.keywordSearch q
                else Callback.keywordSearch q
            | none => Callback.keywordSearch q
          (trace, .returns (callback, some expl))

/-- Shallow embedding of `handleVectorSearch` in
`components/EnhancedSearchBar.tsx`: the try block above wrapped in the catch
block, which records a failure explanation and falls back to the plain keyword
search through `onSearch`. -/
def handleVectorSearch (q : String) (hasAIHandler hasResetHandler : Bool)
    (mode : SearchMode) (probe : FetchOutcome VectorData) (api : JsOutcome VectorData) :
    List TraceEvent × JsOutcome (Callback × Option String) :=
  match handleVectorSearchTry q hasAIHandler hasResetHandler mode probe api with
  | (tr, .returns v) => (tr, .returns v)
  | (tr, .throws m) =>
      (tr, .returns (Callback.keywordSearch q, some ("向量搜索失败: " ++ m)))

/-! Helper lemmas shared by the claim theorems. -/

/-- Appending to a nonempty string never yields the empty string. -/
theorem strAppend_ne_empty (s t : String) (h : s ≠ "") : s ++ t ≠ "" := by
  intro he
  apply h
  have hl := congrArg String.length he
  rw [String.length_append] at hl
  simp at hl
  have hs : s.length = 0 := by omega
  cases s with
  | mk data =>
      simp [String.length] at hs
      simp [hs]

/-- On every failing fetch outcome the proxy throws. -/
theorem proxy_thrown_of_isFailure {o : FetchOutcome VectorData} (h : o.isFailure = true) :
    ∃ m, proxyToBackendWithTimeout o = .thrown m := by
  cases o with
  | responded s stxt d =>
      cases d with
      | ok a =>
          simp [FetchOutcome.isFailure] at h
          exact ⟨"Backend error: " ++ toString s ++ " " ++ stxt,
            by simp [proxyToBackendWithTimeout, proxyToBackend, h]⟩
      | err m =>
          by_cases hs : statusOk s = true
          · exact ⟨m, by simp [proxyToBackendWithTimeout, proxyToBackend, hs]⟩
          · simp only [Bool.not_eq_true] at hs
            exact ⟨"Backend error: " ++ toString s ++ " " ++ stxt,
              by simp [proxyToBackendWithTimeout, proxyToBackend, hs]⟩
  | netError m => exact ⟨m, rfl⟩

/-! Claim C1. -/

/-- C1 counterexample: at the concrete backend failure `netError
"ECONNREFUSED"`, the ai-database search endpoint responds with HTTP 500 (not
200, and with no `service_available` field in its envelope), and the paginated
vector endpoint does not respond at all: its catch block throws. This refutes
the claim that each of the three search endpoints responds with HTTP 200
carrying `service_available=false` on backend failure and never with a 5xx. -/
theorem C1_counterexample :
    (aiDatabasePOST (.netError "ECONNREFUSED")).status = 500 ∧
    ¬ (aiDatabasePOST (.netError "ECONNREFUSED")).status = 200 ∧
    paginatedVectorPOST (.ok ⟨none, none, none, 0, 0, none, none⟩) (.netError "ECONNREFUSED")
      = .throws "ReferenceError: body is not defined" := by
  refine ⟨rfl, by decide, rfl⟩

/-- C1 (amended): on every backend failure (thrown fetch, timeout abort,
non-2xx status, or unparsable 2xx body), the plain vector endpoint responds
HTTP 200 with `service_available=false` and an explanatory message; the
ai-database endpoint instead responds HTTP 500 with an error envelope; and the
paginated endpoint produces no response because its catch block throws a
ReferenceError (it reads the try-scoped `body` binding). -/
theorem C1_amended (o : FetchOutcome VectorData) (h : o.isFailure = true) :
    vectorSearchPOST o =
      ⟨200, .fallback [] 0 0 false "Vector search failed" "向量搜索暂时不可用，请使用普通搜索"⟩ ∧
    aiDatabasePOST o =
      ⟨500, .fallback "AI database search failed" "AI数据库搜索暂时不可用，请使用普通搜索"⟩ ∧
    (∀ rb, paginatedVectorPOST rb o = .throws "ReferenceError: body is not defined") := by
  obtain ⟨m, hm⟩ := proxy_thrown_of_isFailure h
  refine ⟨?_, ?_, ?_⟩
  · simp [vectorSearchPOST, hm]
  · simp [aiDatabasePOST, hm]
  · intro rb
    cases rb with
    | err pm => rfl
    | ok b => simp [paginatedVectorPOST, hm, paginatedCatchBlock, resolves, paginatedCatchScopes]

/-- C1 amended, witnessed at a concrete timeout failure. -/
theorem C1_amended_witness :
    vectorSearchPOST (.netError "AbortError") =
      ⟨200, .fallback [] 0 0 false "Vector search failed" "向量搜索暂时不可用，请使用普通搜索"⟩ :=
  (C1_amended (.netError "AbortError") (by decide)).1

/-! Claim C3. -/

/-- C3 counterexample: a backend rejection of an invalid query (HTTP 400 with
an error body) is answered by the vector route with exactly the same degraded
200 envelope as an infrastructure failure (a refused connection); the
rejection is not surfaced to the caller as a rejected request. -/
theorem C3_counterexample :
    vectorSearchPOST (.responded 400 "Bad Request" (.ok ⟨none, none, none, 0, 0, some "Empty query", none⟩))
      = vectorSearchPOST (.netError "ECONNREFUSED") ∧
    (vectorSearchPOST (.responded 400 "Bad Request" (.ok ⟨none, none, none, 0, 0, some "Empty query", none⟩))).status
      = 200 := by
  exact ⟨by decide, rfl⟩

/-- C3 (amended): the proxy layer throws on every non-2xx backend status, so
the vector route collapses backend rejections (such as an invalid-query 400)
and infrastructure failures into one and the same degraded 200 envelope;
no backend rejection is surfaced as a rejected request. -/
theorem C3_amended (s : Nat) (stxt : String) (d : JsonParse VectorData) (msg : String)
    (h : statusOk s = false) :
    vectorSearchPOST (.responded s stxt d) =
      ⟨200, .fallback [] 0 0 false "Vector search failed" "向量搜索暂时不可用，请使用普通搜索"⟩ ∧
    vectorSearchPOST (.netError msg) =
      ⟨200, .fallback [] 0 0 false "Vector search failed" "向量搜索暂时不可用，请使用普通搜索"⟩ := by
  constructor
  · cases d with
    | ok a => simp [vectorSearchPOST, proxyToBackendWithTimeout, proxyToBackend, h]
    | err m => simp [vectorSearchPOST, proxyToBackendWithTimeout, proxyToBackend, h]
  · rfl

/-- C3 amended, witnessed at a concrete invalid-query rejection. -/
theorem C3_amended_witness :
    vectorSearchPOST (.responded 422 "Unprocessable Entity" (.ok ⟨none, none, none, 0, 0, some "top_k must be positive", none⟩)) =
      ⟨200, .fallback [] 0 0 false "Vector search failed" "向量搜索暂时不可用，请使用普通搜索"⟩ :=
  (C3_amended 422 "Unprocessable Entity" (.ok ⟨none, none, none, 0, 0, some "top_k must be positive", none⟩) "x" (by decide)).1

/-- Availability reported by the status check equals the truthiness of the
live response flag: a 2xx response whose body sets `service_available` to
true, and nothing else, yields `available = true`. -/
theorem checkStatus_available_eq (o : FetchOutcome VectorData) :
    (checkVectorSearchStatus o).available = probeFlagTruthy o := by
  cases o with
  | responded s stxt d =>
      cases d with
      | ok a =>
          by_cases hs : statusOk s = true <;>
            simp [checkVectorSearchStatus, probeFlagTruthy, hs]
      | err m =>
          by_cases hs : statusOk s = true <;>
            simp [checkVectorSearchStatus, probeFlagTruthy, hs]
  | netError m => rfl

/-- The status check always reports a nonempty message. -/
theorem checkStatus_message_ne_empty (o : FetchOutcome VectorData) :
    (checkVectorSearchStatus o).message ≠ "" := by
  cases o with
  | responded s stxt d =>
      cases d with
      | ok a =>
          by_cases hs : statusOk s = true
          · by_cases ha : a.service_available.getD false = true <;>
              simp [checkVectorSearchStatus, hs, ha]
          · simp only [Bool.not_eq_true] at hs
            simp [checkVectorSearchStatus, hs]
            exact strAppend_ne_empty _ _ (by decide)
      | err m =>
          by_cases hs : statusOk s = true
          · simp [checkVectorSearchStatus, hs]
            exact strAppend_ne_empty _ _ (by decide)
          · simp only [Bool.not_eq_true] at hs
            simp [checkVectorSearchStatus, hs]
            exact strAppend_ne_empty _ _ (by decide)
  | netError m =>
      simp [checkVectorSearchStatus]
      exact strAppend_ne_empty _ _ (by decide)

/-! Claim C8. -/

/-- C8: `checkVectorSearchStatus` is total over all outcomes of its fetch: it
always resolves with a record whose `message` is nonempty, and its `available`
field is true exactly when the response was 2xx with a parsed body whose
`service_available` is set and truthy — in particular `available` is false
whenever the backend response omits the flag or sets it to a falsy value, and
on non-2xx statuses and thrown fetches. -/
theorem C8_checkVectorSearchStatus_total (o : FetchOutcome VectorData) :
    (checkVectorSearchStatus o).message ≠ "" ∧
    (checkVectorSearchStatus o).available = probeFlagTruthy o :=
  ⟨checkStatus_message_ne_empty o, checkStatus_available_eq o⟩

/-! Claim C4. -/

/-- C4 counterexample: a single invocation of `checkVectorSearchStatus` issues
a (nonempty) list of backend calls, namely one live POST of a vector search
(query "test", `top_k` 1) to the vector-search route — a full embed-plus-search
round trip on every call. This refutes the claim that the probe reads a cached
availability flag and does not invoke such a round trip per call. -/
theorem C4_counterexample :
    checkVectorSearchStatusCalls ≠ [] ∧
    checkVectorSearchStatusCalls = [statusProbeRequest] ∧
    statusProbeRequest.url = "/api/search/vector" ∧
    statusProbeRequest.method = "POST" ∧
    statusProbeRequest.bodyQuery = "test" ∧
    statusProbeRequest.bodyTopK = 1 := by
  refine ⟨by decide, rfl, rfl, rfl, rfl, rfl⟩

/-- C4 (amended): every invocation of the status probe issues exactly one live
minimal vector-search POST and computes availability solely from that live
response (2xx with a truthy `service_available`); no cached flag is read. -/
theorem C4_amended :
    checkVectorSearchStatusCalls = [statusProbeRequest] ∧
    ∀ o, (checkVectorSearchStatus o).available = probeFlagTruthy o :=
  ⟨rfl, checkStatus_available_eq⟩

/-! Claim C2. -/

/-- C2: for every submitted query whose trimmed text is nonempty, the
vector-search orchestration always resolves with a callback outcome and never
propagates an error: when the health check reports the service unavailable it
invokes the plain keyword search and records an explanation; when the vector
API call throws (with the service reported available) it invokes the keyword
search and records the failure explanation; and when the call resolves without
poses it invokes the keyword search with the recorded explanation. -/
theorem C2_handleVectorSearch_never_errors (q : String) (hasAI hasReset : Bool)
    (mode : SearchMode) (probe : FetchOutcome VectorData) (api : JsOutcome VectorData)
    (hq : jsTrim q ≠ "") :
    (∃ v, (handleVectorSearch q hasAI hasReset mode probe api).2 = .returns v) ∧
    ((checkServiceStatus probe).available = false →
      (handleVectorSearch q hasAI hasReset mode probe api).2 =
        .returns (.keywordSearch q,
          some ("向量搜索服务不可用: " ++ (checkServiceStatus probe).message))) ∧
    (∀ m, (checkServiceStatus probe).available = true → api = .throws m →
      (handleVectorSearch q hasAI hasReset mode probe api).2 =
        .returns (.keywordSearch q, some ("向量搜索失败: " ++ m))) ∧
    (∀ r, (checkServiceStatus probe).available = true → api = .returns r →
      (r.poses = none ∨ r.poses = some []) →
      (handleVectorSearch q hasAI hasReset mode probe api).2 =
        .returns (.keywordSearch q, some (vectorExplanation r))) := by
  by_cases hav : (checkServiceStatus probe).available = true
  · cases api with
    | throws m =>
        refine ⟨⟨(.keywordSearch q, some ("向量搜索失败: " ++ m)), ?_⟩, ?_, ?_, ?_⟩
        · simp [handleVectorSearch, handleVectorSearchTry, innerVectorSearch, hq, hav]
        · intro hfalse; rw [hav] at hfalse; cases hfalse
        · intro m2 _ hm2
          cases hm2
          simp [handleVectorSearch, handleVectorSearchTry, innerVectorSearch, hq, hav]
        · intro r _ hr; cases hr
    | returns r =>
        have hmain : ∀ cb, (match r.poses with
            | some ps => if ps.length > 0 then
                (if hasAI then Callback.aiResult ps else Callback.keywordSearch q)
              else Callback.keywordSearch q
            | none => Callback.keywordSearch q) = cb →
            (handleVectorSearch q hasAI hasReset mode probe (JsOutcome.returns r)).2 =
              .returns (cb, some (vectorExplanation r)) := by
          intro cb hcb
          simp [handleVectorSearch, handleVectorSearchTry, innerVectorSearch, hq, hav, ← hcb]
        refine ⟨?_, ?_, ?_, ?_⟩
        · exact ⟨_, hmain _ rfl⟩
        · intro hfalse; rw [hav] at hfalse; cases hfalse
        · intro m _ hm; cases hm
        · intro r2 _ hr2 hempty
          cases hr2
          rcases hempty with h0 | h0 <;>
            simpa [h0] using hmain (Callback.keywordSearch q) (by simp [h0])
  · simp only [Bool.not_eq_true] at hav
    have hres : (handleVectorSearch q hasAI hasReset mode probe api).2 =
        .returns (.keywordSearch q,
          some ("向量搜索服务不可用: " ++ (checkServiceStatus probe).message)) := by
      simp [handleVectorSearch, handleVectorSearchTry, hq, hav]
    refine ⟨⟨_, hres⟩, fun _ => hres, ?_, ?_⟩
    · intro m htrue; rw [hav] at htrue; cases htrue
    · intro r htrue; rw [hav] at htrue; cases htrue

/-- C2 witnessed at a concrete query with an unavailable backend. -/
theorem C2_witness :
    (handleVectorSearch "咖啡厅拍照" true true .dynamic (.netError "ECONNREFUSED")
        (.throws "fetch failed")).2 =
      .returns (.keywordSearch "咖啡厅拍照",
        some ("向量搜索服务不可用: " ++ (checkServiceStatus (.netError "ECONNREFUSED")).message)) :=
  (C2_handleVectorSearch_never_errors "咖啡厅拍照" true true .dynamic (.netError "ECONNREFUSED")
    (.throws "fetch failed") (by decide)).2.1 (by decide)

/-! Claim C5. -/

/-- C5 counterexample: on a concrete search request (query "咖啡厅拍照", service
reported available, vector call resolving with results), the first backend
event of `handleVectorSearch` is the awaited live status-probe fetch, issued
before the vector attempt — the health-check step does not consult only a
cached availability status. -/
theorem C5_counterexample :
    (handleVectorSearch "咖啡厅拍照" true true .dynamic
        (.responded 200 "OK" (.ok ⟨some [], some true, none, 0, 5, none, none⟩))
        (.returns ⟨some mockPoses, some true, none, 3, 5, none, some 3⟩)).1
      = [.liveProbe statusProbeRequest, .vectorCall .dynamic "咖啡厅拍照"] ∧
    (handleVectorSearch "咖啡厅拍照" true true .dynamic
        (.responded 200 "OK" (.ok ⟨some [], some true, none, 0, 5, none, none⟩))
        (.returns ⟨some mockPoses, some true, none, 3, 5, none, some 3⟩)).1.head?
      = some (.liveProbe statusProbeRequest) := by
  exact ⟨by decide, by decide⟩

/-- C5 (amended): on every search request with nonempty trimmed query, the
health-check step performs an awaited live probe (the minimal vector-search
POST of `checkVectorSearchStatus`) as the first backend event, before any
vector attempt; the cached `vectorServiceStatus` state is written but not
consulted. -/
theorem C5_amended (q : String) (hasAI hasReset : Bool) (mode : SearchMode)
    (probe : FetchOutcome VectorData) (api : JsOutcome VectorData) (hq : jsTrim q ≠ "") :
    (handleVectorSearch q hasAI hasReset mode probe api).1.head?
      = some (.liveProbe statusProbeRequest) := by
  by_cases hav : (checkServiceStatus probe).available = true
  · cases api with
    | throws m => simp [handleVectorSearch, handleVectorSearchTry, innerVectorSearch, hq, hav]
    | returns r => simp [handleVectorSearch, handleVectorSearchTry, innerVectorSearch, hq, hav]
  · simp only [Bool.not_eq_true] at hav
    simp [handleVectorSearch, handleVectorSearchTry, hq, hav]

/-- C5 amended, witnessed at a concrete request. -/
theorem C5_amended_witness :
    (handleVectorSearch "户外人像" false false .paginated (.netError "down")
        (.throws "fetch failed")).1.head? = some (.liveProbe statusProbeRequest) :=
  C5_amended "户外人像" false false .paginated (.netError "down") (.throws "fetch failed")
    (by decide)

/-- On every failing backend outcome the poses route answers 200 with the
fixed mock body. -/
theorem posesGET_failure (p : PosesParams) (url : String) {o : FetchOutcome PosesData}
    (h : o.isFailure = true) :
    (posesGET p url o).2 = ⟨200, .mock ⟨mockPoses, mockPoses.length,
      jsParseInt (jsStrOr p.page "1"), jsParseInt (jsStrOr p.per_page "20"), false⟩⟩ := by
  cases o with
  | responded s stxt d =>
      cases d with
      | ok a =>
          have hs : statusOk s = false := by simpa [FetchOutcome.isFailure] using h
          simp [posesGET, hs]
      | err m => simp [posesGET]
  | netError m => simp [posesGET]

/-- On every failing backend outcome the suggestions route answers the same
response, which depends only on the query parameter. -/
theorem suggestionsGET_failure (q : Option String) {o : FetchOutcome (List String)}
    (h : o.isFailure = true) :
    (suggestionsGET q o).2 = (suggestionsGET q (.netError "e")).2 := by
  cases o with
  | responded s stxt d =>
      cases d with
      | ok a =>
          have hs : statusOk s = false := by simpa [FetchOutcome.isFailure] using h
          simp only [suggestionsGET, hs]
          split <;> simp [hs]
      | err m => rfl
  | netError m => rfl

/-! Claim C6. -/

/-- C6 counterexample: for the concrete typed text "写" the local suggestion
provider returns the two matching hardcoded records in list order, with
weights 7/10 followed by 8/10 — an order that is not descending by weight (and
no caller-supplied limit exists: the count is fixed at five). This refutes the
claim that suggestion candidates are scored, sorted in descending score order
and truncated to the requested limit. -/
theorem C6_counterexample :
    getLocalSuggestions "写" =
      [⟨"坐姿写真", .tag, mkRat 7 10⟩, ⟨"室内写真", .tag, mkRat 8 10⟩] ∧
    ¬ ((getLocalSuggestions "写").map SearchSuggestion.weight).Sorted (· ≥ ·) := by
  exact ⟨by decide, by decide⟩

/-- C6 (amended): the local suggestion provider returns the hardcoded
candidates whose text contains the typed text, as `{text, type, weight}`
records in the fixed list order (a sublist of the hardcoded pool, not sorted
by any computed score), truncated to at most five entries. -/
theorem C6_amended (t : String) :
    (getLocalSuggestions t).Sublist commonSuggestions ∧
    (getLocalSuggestions t).length ≤ 5 ∧
    ∀ s ∈ getLocalSuggestions t, strIncludes s.text t = true := by
  refine ⟨(List.take_sublist _ _).trans (List.filter_sublist _), List.length_take_le _ _, ?_⟩
  intro s hs
  exact (List.mem_filter.mp (List.mem_of_mem_take hs)).2

/-! Claim C7. -/

/-- C7: the lexical/fallback path is deterministic: with the backend failing,
the suggestions response is a function of the query parameter alone (any two
failing outcomes produce identical ordered results) and the poses response is
a function of the request parameters alone (any two failing outcomes, under
any two backend base URLs from the environment, produce identical ordered
results). -/
theorem C7_fallback_deterministic (q : Option String) (p : PosesParams)
    (url1 url2 : String) (o1 o2 : FetchOutcome (List String))
    (f1 f2 : FetchOutcome PosesData)
    (h1 : o1.isFailure = true) (h2 : o2.isFailure = true)
    (h3 : f1.isFailure = true) (h4 : f2.isFailure = true) :
    (suggestionsGET q o1).2 = (suggestionsGET q o2).2 ∧
    (posesGET p url1 f1).2 = (posesGET p url2 f2).2 := by
  constructor
  · rw [suggestionsGET_failure q h1, suggestionsGET_failure q h2]
  · rw [posesGET_failure p url1 h3, posesGET_failure p url2 h4]

/-- C7 witnessed at the query of the spec example with two distinct failing
backend states and two distinct base URLs. -/
theorem C7_witness :
    (suggestionsGET (some "咖啡厅拍照") (.netError "timeout")).2 =
      (suggestionsGET (some "咖啡厅拍照") (.responded 503 "Service Unavailable" (.err "bad json"))).2 ∧
    (posesGET ⟨some "1", some "20", some "咖啡厅拍照", none, none, none⟩ "http://127.0.0.1:8000"
        (.netError "timeout")).2 =
      (posesGET ⟨some "1", some "20", some "咖啡厅拍照", none, none, none⟩ "http://backend:8000"
        (.responded 500 "Internal Server Error" (.ok ⟨[], 0, 1, 20, false⟩))).2 :=
  C7_fallback_deterministic (some "咖啡厅拍照") ⟨some "1", some "20", some "咖啡厅拍照", none, none, none⟩
    "http://127.0.0.1:8000" "http://backend:8000" (.netError "timeout")
    (.responded 503 "Service Unavailable" (.err "bad json")) (.netError "timeout")
    (.responded 500 "Internal Server Error" (.ok ⟨[], 0, 1, 20, false⟩))
    (by decide) (by decide) (by decide) (by decide)

/-! Claim C9. -/

/-- C9: whenever the `q` parameter is absent or shorter than two characters,
the suggestions route immediately answers 200 with an empty JSON array and
issues no backend call. -/
theorem C9_short_query_no_backend (q : Option String) (o : FetchOutcome (List String))
    (h : q = none ∨ ∃ s, q = some s ∧ s.length < 2) :
    suggestionsGET q o = ([], ⟨200, []⟩) := by
  rcases h with h | ⟨s, rfl, hlen⟩
  · subst h; rfl
  · have hd : decide (s.length < 2) = true := decide_eq_true hlen
    simp [suggestionsGET, hd]

/-- C9 witnessed at a one-character query and a live backend outcome. -/
theorem C9_witness :
    suggestionsGET (some "咖") (.responded 200 "OK" (.ok ["咖啡馆拍照"])) = ([], ⟨200, []⟩) :=
  C9_short_query_no_backend (some "咖") (.responded 200 "OK" (.ok ["咖啡馆拍照"]))
    (Or.inr ⟨"咖", rfl, by decide⟩)

/-! Claim C10. -/

/-- C10: whenever the backend request of the poses route fails or returns a
non-2xx status, the route answers 200 with exactly the fixed three-item mock
list, `total = 3` and `hasMore = false`, independent of the requested page and
page size, while the `page` and `per_page` response fields echo the requested
parameters (run through `parseInt` after the string defaults). -/
theorem C10_poses_mock_on_failure (p : PosesParams) (url : String)
    (o : FetchOutcome PosesData) (h : o.isFailure = true) :
    (posesGET p url o).2 = ⟨200, .mock ⟨mockPoses, 3,
      jsParseInt (jsStrOr p.page "1"), jsParseInt (jsStrOr p.per_page "20"), false⟩⟩ ∧
    mockPoses.length = 3 := by
  refine ⟨?_, rfl⟩
  simpa using posesGET_failure p url h

/-- C10 witnessed at page 5 with page size 7 and a timed-out backend: the mock
is returned unpaginated with the requested values echoed back. -/
theorem C10_witness :
    (posesGET ⟨some "5", some "7", none, none, none, none⟩ "http://127.0.0.1:8000"
        (.netError "AbortError")).2 =
      ⟨200, .mock ⟨mockPoses, 3, some 5, some 7, false⟩⟩ :=
  (C10_poses_mock_on_failure ⟨some "5", some "7", none, none, none, none⟩
      "http://127.0.0.1:8000" (.netError "AbortError") (by decide)).1.trans (by decide)

end PoseGallery
